import Mathlib

/-
Verification of the BrainMatch analytics integration layer
(src/analytics-integration.js).

The script monkey-patches the host game functions startGame,
startReflexMode, handleCorrectMatch, handleIncorrectMatch,
handleCampaignWin, handleReflexModeEnd and startTimer, and (inside the
startTimer wrapper) window.alert.  Each wrapper runs instrumentation in a
try/catch and then delegates to the captured original.

The embedding below models the module-level mutable variables
(levelStartTime, currentLevelId, taskCounter) plus the number of alert
wrappers chained by startTimer as an explicit state, and the observable
behavior of one wrapped invocation as a list of events: calls to the
external analytics sink, the delegation to the original function (with
its call context and arguments), and the assignment to window.alert.
Instrumentation exceptions are modelled at their sources: an absent
window.gameState makes the property read throw (caught by the wrapper,
keeping the mutations already performed), and Host.analyticsThrows makes
every analytics sink method throw when invoked.
-/

namespace BrainMatch

/-- A JavaScript value passed to or returned from a host operation. -/
inductive JVal where
  | num (n : Int)
  | str (s : String)
  | undef
  deriving DecidableEq, Repr

/-- One call to the external analytics sink (the AnalyticsManager).
The levelId argument is Option String because the script passes the
module variable currentLevelId, which is null before any level start. -/
inductive SinkCall where
  | startLevel (levelId : Option String)
  | recordTask (levelId : Option String) (taskId label expected actual : String)
      (timeTakenMs xpEarned : Nat)
  | endLevel (levelId : Option String) (success : Bool) (durationMs : Int) (xp : Int)
  | addRawMetric (key value : String)
  | submitReport
  deriving DecidableEq, Repr

/-- An observable event of one wrapped invocation: a sink call, the
delegation to the captured original function (recording the call context
passed as this and the argument list), or the assignment
window.alert := wrapper performed by the startTimer hook. -/
inductive Event where
  | sink (c : SinkCall)
  | origCall (name : String) (ctx : JVal) (args : List JVal)
  | setAlert
  deriving DecidableEq, Repr

/-- A flipped card as read from the DOM dataset: dataset.value and
dataset.match (the declared match target).  A missing attribute reads as
undefined, modelled by none. -/
structure Card where
  value : Option String
  matchTarget : Option String
  deriving DecidableEq, Repr

/-- The host game state object window.gameState. -/
structure GameState where
  flippedCards : Option (List Card)
  currentCampaignLevel : Int
  turns : Int
  deriving DecidableEq, Repr

/-- The host environment read by the instrumentation at call time.
gameState = none models window.gameState being undefined, so that
reading a property of it throws inside the try block.  The three
calculator fields model the optional host functions calculateXP,
calculateCampaignStars and calculateReflexStars.  analyticsThrows = true
models every analytics sink method throwing when invoked (sink failure);
now is the value Date.now() returns during this invocation. -/
structure Host where
  gameState : Option GameState
  calculateXP : Option (Int → Int → Int)
  calculateCampaignStars : Option (Int → Int → Int)
  calculateReflexStars : Option (Int → Int)
  analyticsThrows : Bool
  now : Nat

/-- The integration script module state: the three module-level mutable
variables (levelStartTime, currentLevelId, taskCounter; the first two
start as null) plus alertDepth, the number of alert wrappers the
startTimer hook has chained onto window.alert so far. -/
structure IntState where
  levelStartTime : Option Nat
  currentLevelId : Option String
  taskCounter : Nat
  alertDepth : Nat
  deriving DecidableEq, Repr

/-- The module state right after the script loads. -/
def initState : IntState :=
  { levelStartTime := none, currentLevelId := none, taskCounter := 0, alertDepth := 0 }

/-- The result of one invocation of a wrapped operation: the module
state afterwards, the observable events in order, and the value returned
to the host caller (error models an uncaught exception reaching the
caller). -/
structure HookResult where
  state : IntState
  events : List Event
  ret : Except String JVal

/-- JavaScript (x || "unknown") applied to a dataset read: undefined and
the empty string are falsy, so both default to the sentinel. -/
def orUnknown : Option String → String
  | none => "unknown"
  | some s => if s = "" then "unknown" else s

/-- The number JavaScript uses for levelStartTime in a subtraction:
null coerces to 0. -/
def startedAtOr0 (s : IntState) : Int :=
  match s.levelStartTime with
  | some t => (t : Int)
  | none => 0

/-- Substring search on character lists, the recursion behind
String.prototype.includes. -/
def containsSub (needle : List Char) : List Char → Bool
  | [] => needle.isEmpty
  | c :: cs => needle.isPrefixOf (c :: cs) || containsSub needle cs

/-- JavaScript hay.includes(needle). -/
def jsIncludes (hay needle : String) : Bool :=
  containsSub needle.toList hay.toList

/-- The timeout marker substring the alert wrapper matches against. -/
def timeoutMarker : String := "Time\x27s Up"

/-- The shape shared by all hooks except startTimer (source lines 37-58,
64-86, 92-125, 131-165, 171-214, 220-254): instrumentation inside
try/catch produced the state s2 and the sink calls instr, then the
wrapper unconditionally delegates to the captured original.  When the
original existed at attach time (orig = some r) it is called with the
wrapper's own this and arguments and its value is returned; when it was
undefined, the delegation itself throws a TypeError that is outside the
try block, so it reaches the host caller after the instrumentation
already ran. -/
def mkHook (s2 : IntState) (instr : List SinkCall) (name : String) (ctx : JVal)
    (args : List JVal) (orig : Option JVal) : HookResult :=
  match orig with
  | some r => ⟨s2, instr.map Event.sink ++ [Event.origCall name ctx args], .ok r⟩
  | none => ⟨s2, instr.map Event.sink, .error ("TypeError: original " ++ name ++ " is undefined")⟩

/-- Wrapper for window.startGame (source lines 37-58): sets
currentLevelId, levelStartTime and taskCounter, calls
analytics.startLevel, then delegates. -/
def startGame (host : Host) (s : IntState) (ctx : JVal) (level : Int)
    (orig : Option JVal) : HookResult :=
  let s2 : IntState :=
    { s with currentLevelId := some (("campaign_level_") ++ toString level),
             levelStartTime := some host.now,
             taskCounter := 0 }
  let instr : List SinkCall :=
    if host.analyticsThrows then [] else [.startLevel s2.currentLevelId]
  mkHook s2 instr ("startGame") ctx [.num level] orig

/-- Wrapper for window.startReflexMode (source lines 65-86). -/
def startReflexMode (host : Host) (s : IntState) (ctx : JVal)
    (orig : Option JVal) : HookResult :=
  let s2 : IntState :=
    { s with currentLevelId := some ("reflex_mode"),
             levelStartTime := some host.now,
             taskCounter := 0 }
  let instr : List SinkCall :=
    if host.analyticsThrows then [] else [.startLevel s2.currentLevelId]
  mkHook s2 instr ("startReflexMode") ctx [] orig

/-- The try block of the handleCorrectMatch wrapper (source lines
94-121): reads window.gameState.flippedCards (throwing, hence changing
nothing, when gameState is undefined), and when exactly two cards are
flipped increments taskCounter and records the task; a throwing sink
still leaves the counter incremented, since the increment precedes the
recordTask call. -/
def correctMatchInstr (host : Host) (s : IntState) : IntState × List SinkCall :=
  match host.gameState with
  | none => (s, [])
  | some gs =>
    match gs.flippedCards with
    | some [card1, card2] =>
      let card1Value := orUnknown card1.value
      let card2Value := orUnknown card2.value
      let s2 := { s with taskCounter := s.taskCounter + 1 }
      if host.analyticsThrows then (s2, [])
      else (s2, [.recordTask s.currentLevelId (("task_") ++ toString s2.taskCounter)
        (("Match: ") ++ card1Value) card1Value card2Value 0 0])
    | _ => (s, [])

/-- Wrapper for window.handleCorrectMatch (source lines 93-125). -/
def handleCorrectMatch (host : Host) (s : IntState) (ctx : JVal)
    (orig : Option JVal) : HookResult :=
  mkHook (correctMatchInstr host s).1 (correctMatchInstr host s).2
    ("handleCorrectMatch") ctx [] orig

/-- The try block of the handleIncorrectMatch wrapper (source lines
133-161): like the correct case, but expected is the first card's
declared match target dataset.match (defaulting to unknown). -/
def incorrectMatchInstr (host : Host) (s : IntState) : IntState × List SinkCall :=
  match host.gameState with
  | none => (s, [])
  | some gs =>
    match gs.flippedCards with
    | some [card1, card2] =>
      let card1Value := orUnknown card1.value
      let card2Value := orUnknown card2.value
      let expectedMatch := orUnknown card1.matchTarget
      let s2 := { s with taskCounter := s.taskCounter + 1 }
      if host.analyticsThrows then (s2, [])
      else (s2, [.recordTask s.currentLevelId (("task_") ++ toString s2.taskCounter)
        (("Match: ") ++ card1Value) expectedMatch card2Value 0 0])
    | _ => (s, [])

/-- Wrapper for window.handleIncorrectMatch (source lines 132-165). -/
def handleIncorrectMatch (host : Host) (s : IntState) (ctx : JVal)
    (orig : Option JVal) : HookResult :=
  mkHook (incorrectMatchInstr host s).1 (incorrectMatchInstr host s).2
    ("handleIncorrectMatch") ctx [] orig

/-- The try block of the handleCampaignWin wrapper (source lines
173-210): reads level and turns from gameState (throwing when it is
undefined), computes duration as Date.now() minus levelStartTime (null
coercing to 0), optionally calls the host XP and star calculators, then
ends the level, adds five metrics and submits.  A throwing sink throws
at the endLevel call, so no sink call is delivered. -/
def campaignWinInstr (host : Host) (s : IntState) : List SinkCall :=
  match host.gameState with
  | none => []
  | some gs =>
    let level := gs.currentCampaignLevel
    let turns := gs.turns
    let duration : Int := (host.now : Int) - startedAtOr0 s
    let xp : Int :=
      match host.calculateXP with
      | some f => f level turns
      | none => 0
    let stars : Int :=
      match host.calculateCampaignStars with
      | some f => f level turns
      | none => 0
    if host.analyticsThrows then []
    else [.endLevel s.currentLevelId true duration xp,
      .addRawMetric ("level") (toString level),
      .addRawMetric ("turns") (toString turns),
      .addRawMetric ("xp_earned") (toString xp),
      .addRawMetric ("stars") (toString stars),
      .addRawMetric ("mode") ("campaign"),
      .submitReport]

/-- Wrapper for window.handleCampaignWin (source lines 172-214).  The
instrumentation does not change the module variables. -/
def handleCampaignWin (host : Host) (s : IntState) (ctx : JVal)
    (orig : Option JVal) : HookResult :=
  mkHook s (campaignWinInstr host s) ("handleCampaignWin") ctx [] orig

/-- The try block of the handleReflexModeEnd wrapper (source lines
222-250): reads turns, computes duration the same way, optionally calls
the reflex star calculator, ends the level with xp 0, adds three
metrics and submits. -/
def reflexEndInstr (host : Host) (s : IntState) : List SinkCall :=
  match host.gameState with
  | none => []
  | some gs =>
    let turns := gs.turns
    let duration : Int := (host.now : Int) - startedAtOr0 s
    let stars : Int :=
      match host.calculateReflexStars with
      | some f => f turns
      | none => 0
    if host.analyticsThrows then []
    else [.endLevel s.currentLevelId true duration 0,
      .addRawMetric ("moves") (toString turns),
      .addRawMetric ("stars") (toString stars),
      .addRawMetric ("mode") ("reflex"),
      .submitReport]

/-- Wrapper for window.handleReflexModeEnd (source lines 221-254). -/
def handleReflexModeEnd (host : Host) (s : IntState) (ctx : JVal)
    (orig : Option JVal) : HookResult :=
  mkHook s (reflexEndInstr host s) ("handleReflexModeEnd") ctx [] orig

/-- Wrapper for window.startTimer (source lines 261-298).  Unlike every
other hook it calls the original FIRST (line 263, before the try block)
and only then chains a new wrapper onto window.alert; when the original
is undefined the call on line 263 throws before anything else happens. -/
def startTimer (host : Host) (s : IntState) (ctx : JVal) (duration : Int)
    (orig : Option JVal) : HookResult :=
  match orig with
  | none => ⟨s, [], .error ("TypeError: original startTimer is undefined")⟩
  | some r =>
    ⟨{ s with alertDepth := s.alertDepth + 1 },
     [Event.origCall ("startTimer") ctx [.num duration], Event.setAlert], .ok r⟩

/-- The instrumentation of one chained alert wrapper layer (source lines
270-288): when the message contains the timeout marker it ends the
level as a failure, adds the reason and turns metrics and submits; the
turns read throws when gameState is undefined (after the reason metric
was already added), and a throwing sink throws already at endLevel. -/
def alertLayer (host : Host) (s : IntState) (message : String) : List SinkCall :=
  if jsIncludes message timeoutMarker then
    let timeTaken : Int := (host.now : Int) - startedAtOr0 s
    if host.analyticsThrows then []
    else
      match host.gameState with
      | none =>
        [.endLevel s.currentLevelId false timeTaken 0,
         .addRawMetric ("reason") ("timeout")]
      | some gs =>
        [.endLevel s.currentLevelId false timeTaken 0,
         .addRawMetric ("reason") ("timeout"),
         .addRawMetric ("turns") (toString gs.turns),
         .submitReport]
  else []

/-- The events of calling window.alert message through depth chained
wrapper layers down to the real browser alert: each layer runs its
instrumentation (reading the current module state) and then delegates
to the alert it captured at install time; the innermost call is the
real alert, receiving the unchanged message. -/
def alertCall (host : Host) (s : IntState) (ctx : JVal) (message : String) :
    Nat → List Event
  | 0 => [Event.origCall ("alert") ctx [.str message]]
  | d + 1 => (alertLayer host s message).map Event.sink ++ alertCall host s ctx message d

/-- Invoking window.alert message when s.alertDepth wrappers have been
chained by startTimer; the real browser alert exists and returns
undefined, which every layer passes back unchanged. -/
def alertInvoke (host : Host) (s : IntState) (ctx : JVal) (message : String) : HookResult :=
  ⟨s, alertCall host s ctx message s.alertDepth, .ok .undef⟩

/-- Whether an event is the delegation to an original function. -/
def isOrigCall : Event → Bool
  | .origCall _ _ _ => true
  | _ => false

/-- The delegations to the original operation called name, with the
context and arguments each received. -/
def origCalls (name : String) (evs : List Event) : List (JVal × List JVal) :=
  evs.filterMap fun e =>
    match e with
    | .origCall n ctx args => if n = name then some (ctx, args) else none
    | _ => none

/-- Whether an event is a report submission to the sink. -/
def isSubmit : Event → Bool
  | .sink .submitReport => true
  | _ => false

/-- How many reports were submitted to the sink. -/
def submitCount (evs : List Event) : Nat :=
  (evs.filter isSubmit).length

/-- Whether an event ends a level with success = false. -/
def isFailureEnd : Event → Bool
  | .sink (.endLevel _ ok _ _) => !ok
  | _ => false

/-- The (key, value) pairs of the addRawMetric calls received by the sink. -/
def rawMetrics (evs : List Event) : List (String × String) :=
  evs.filterMap fun e =>
    match e with
    | .sink (.addRawMetric k v) => some (k, v)
    | _ => none

/-- The taskId fields of the task records sent to the sink. -/
def taskIds (evs : List Event) : List String :=
  evs.filterMap fun e =>
    match e with
    | .sink (.recordTask _ tid _ _ _ _ _) => some tid
    | _ => none

/-- A task record as received by the sink. -/
structure TaskRec where
  levelId : Option String
  taskId : String
  label : String
  expected : String
  actual : String
  timeTakenMs : Nat
  xpEarned : Nat
  deriving DecidableEq, Repr

/-- The task records sent to the sink. -/
def taskRecs (evs : List Event) : List TaskRec :=
  evs.filterMap fun e =>
    match e with
    | .sink (.recordTask lid tid lbl exp act tms xpe) => some ⟨lid, tid, lbl, exp, act, tms, xpe⟩
    | _ => none

/-- The endLevel calls received by the sink, as
(levelId, success, durationMs, xp) tuples. -/
def endLevels (evs : List Event) : List (Option String × Bool × Int × Int) :=
  evs.filterMap fun e =>
    match e with
    | .sink (.endLevel lid ok d xpv) => some (lid, ok, d, xpv)
    | _ => none

/-- Whether an invocation let an exception reach the host caller. -/
def threw : Except String JVal → Bool
  | .ok _ => false
  | .error _ => true

/-- Whether the event list consists of instrumentation followed by a
single final delegation to the original: every event before the last is
not a delegation, and the last event is one. -/
def instrThenOrig (evs : List Event) : Bool :=
  (evs.dropLast.all fun e => !isOrigCall e) &&
    (match evs.getLast? with
     | some e => isOrigCall e
     | none => false)

/-! Helper lemmas about the observation functions. -/

theorem origCalls_append (n : String) (l1 l2 : List Event) :
    origCalls n (l1 ++ l2) = origCalls n l1 ++ origCalls n l2 := by
  simp [origCalls, List.filterMap_append]

theorem origCalls_map_sink (n : String) (l : List SinkCall) :
    origCalls n (l.map Event.sink) = [] := by
  induction l with
  | nil => rfl
  | cons c t ih => simpa [origCalls, List.filterMap_cons] using ih

theorem origCalls_single (n : String) (c : JVal) (a : List JVal) :
    origCalls n [Event.origCall n c a] = [(c, a)] := by
  simp [origCalls]

theorem mkHook_ret (s2 : IntState) (i : List SinkCall) (n : String) (c : JVal)
    (a : List JVal) (r : JVal) : (mkHook s2 i n c a (some r)).ret = .ok r := rfl

theorem mkHook_state (s2 : IntState) (i : List SinkCall) (n : String) (c : JVal)
    (a : List JVal) (orig : Option JVal) : (mkHook s2 i n c a orig).state = s2 := by
  cases orig <;> rfl

theorem origCalls_mkHook (s2 : IntState) (i : List SinkCall) (n : String) (c : JVal)
    (a : List JVal) (r : JVal) :
    origCalls n (mkHook s2 i n c a (some r)).events = [(c, a)] := by
  simp [mkHook, origCalls_append, origCalls_map_sink, origCalls_single]

theorem origCalls_mkHook_none (s2 : IntState) (i : List SinkCall) (n : String) (c : JVal)
    (a : List JVal) :
    origCalls n (mkHook s2 i n c a none).events = [] := by
  simp [mkHook, origCalls_map_sink]

theorem instrThenOrig_concat (pre : List Event) (n : String) (c : JVal) (a : List JVal)
    (h : ∀ e ∈ pre, isOrigCall e = false) :
    instrThenOrig (pre ++ [Event.origCall n c a]) = true := by
  have h1 : (pre ++ [Event.origCall n c a]).dropLast = pre := by simp
  have h2 : (pre ++ [Event.origCall n c a]).getLast? = some (Event.origCall n c a) := by
    simp [List.getLast?_concat]
  simp only [instrThenOrig, h1, h2, Bool.and_eq_true, List.all_eq_true]
  constructor
  · intro e he
    simp [h e he]
  · rfl

theorem instrThenOrig_mkHook (s2 : IntState) (i : List SinkCall) (n : String) (c : JVal)
    (a : List JVal) (r : JVal) :
    instrThenOrig (mkHook s2 i n c a (some r)).events = true := by
  show instrThenOrig (i.map Event.sink ++ [Event.origCall n c a]) = true
  apply instrThenOrig_concat
  intro e he
  simp only [List.mem_map] at he
  obtain ⟨sc, _, rfl⟩ := he
  rfl

theorem alertCall_shape (host : Host) (s : IntState) (ctx : JVal) (m : String) :
    ∀ d, ∃ pre : List SinkCall,
      alertCall host s ctx m d
        = pre.map Event.sink ++ [Event.origCall ("alert") ctx [.str m]]
  | 0 => ⟨[], rfl⟩
  | d + 1 => by
    obtain ⟨pre, hp⟩ := alertCall_shape host s ctx m d
    exact ⟨alertLayer host s m ++ pre, by simp [alertCall, hp]⟩

theorem origCalls_alertInvoke (host : Host) (s : IntState) (ctx : JVal) (m : String) :
    origCalls ("alert") (alertInvoke host s ctx m).events = [(ctx, [.str m])] := by
  obtain ⟨pre, hp⟩ := alertCall_shape host s ctx m s.alertDepth
  simp [alertInvoke, hp, origCalls_append, origCalls_map_sink, origCalls_single]

theorem instrThenOrig_alertInvoke (host : Host) (s : IntState) (ctx : JVal) (m : String) :
    instrThenOrig (alertInvoke host s ctx m).events = true := by
  obtain ⟨pre, hp⟩ := alertCall_shape host s ctx m s.alertDepth
  show instrThenOrig (alertCall host s ctx m s.alertDepth) = true
  rw [hp]
  apply instrThenOrig_concat
  intro e he
  simp only [List.mem_map] at he
  obtain ⟨sc, _, rfl⟩ := he
  rfl

theorem alertCall_one (host : Host) (s : IntState) (ctx : JVal) (m : String) :
    alertCall host s ctx m 1
      = (alertLayer host s m).map Event.sink
        ++ [Event.origCall ("alert") ctx [.str m]] := rfl

theorem taskIds_mkHook (s2 : IntState) (i : List SinkCall) (n : String) (c : JVal)
    (a : List JVal) (orig : Option JVal) :
    taskIds (mkHook s2 i n c a orig).events = taskIds (i.map Event.sink) := by
  cases orig <;> simp [mkHook, taskIds, List.filterMap_append]

theorem taskRecs_mkHook (s2 : IntState) (i : List SinkCall) (n : String) (c : JVal)
    (a : List JVal) (orig : Option JVal) :
    taskRecs (mkHook s2 i n c a orig).events = taskRecs (i.map Event.sink) := by
  cases orig <;> simp [mkHook, taskRecs, List.filterMap_append]

theorem endLevels_mkHook (s2 : IntState) (i : List SinkCall) (n : String) (c : JVal)
    (a : List JVal) (orig : Option JVal) :
    endLevels (mkHook s2 i n c a orig).events = endLevels (i.map Event.sink) := by
  cases orig <;> simp [mkHook, endLevels, List.filterMap_append]

theorem submitCount_mkHook (s2 : IntState) (i : List SinkCall) (n : String) (c : JVal)
    (a : List JVal) (orig : Option JVal) :
    submitCount (mkHook s2 i n c a orig).events = submitCount (i.map Event.sink) := by
  cases orig <;> simp [mkHook, submitCount, List.filter_append, isSubmit]

/-! Claim theorems. -/

/-- C1: for every hooked operation (startGame, startReflexMode,
handleCorrectMatch, handleIncorrectMatch, handleCampaignWin,
handleReflexModeEnd, startTimer, and the chained alert wrappers), when
the original operation existed at attach time (orig = some r; the
browser alert always exists and returns undefined), the wrapped version
delegates to the original exactly once, with the wrapper's own call
context and arguments, and returns the original's value unchanged.
host and s are arbitrary, so every instrumentation path is covered,
including the throwing ones (window.gameState undefined, every
analytics sink method throwing). -/
theorem hooks_preserve_original (host : Host) (s : IntState) (ctx : JVal)
    (level dur : Int) (msg : String) (r : JVal) :
    ((startGame host s ctx level (some r)).ret = .ok r ∧
      origCalls ("startGame") (startGame host s ctx level (some r)).events
        = [(ctx, [.num level])]) ∧
    ((startReflexMode host s ctx (some r)).ret = .ok r ∧
      origCalls ("startReflexMode") (startReflexMode host s ctx (some r)).events
        = [(ctx, [])]) ∧
    ((handleCorrectMatch host s ctx (some r)).ret = .ok r ∧
      origCalls ("handleCorrectMatch") (handleCorrectMatch host s ctx (some r)).events
        = [(ctx, [])]) ∧
    ((handleIncorrectMatch host s ctx (some r)).ret = .ok r ∧
      origCalls ("handleIncorrectMatch") (handleIncorrectMatch host s ctx (some r)).events
        = [(ctx, [])]) ∧
    ((handleCampaignWin host s ctx (some r)).ret = .ok r ∧
      origCalls ("handleCampaignWin") (handleCampaignWin host s ctx (some r)).events
        = [(ctx, [])]) ∧
    ((handleReflexModeEnd host s ctx (some r)).ret = .ok r ∧
      origCalls ("handleReflexModeEnd") (handleReflexModeEnd host s ctx (some r)).events
        = [(ctx, [])]) ∧
    ((startTimer host s ctx dur (some r)).ret = .ok r ∧
      origCalls ("startTimer") (startTimer host s ctx dur (some r)).events
        = [(ctx, [.num dur])]) ∧
    ((alertInvoke host s ctx msg).ret = .ok .undef ∧
      origCalls ("alert") (alertInvoke host s ctx msg).events = [(ctx, [.str msg])]) := by
  refine ⟨⟨rfl, ?_⟩, ⟨rfl, ?_⟩, ⟨rfl, ?_⟩, ⟨rfl, ?_⟩, ⟨rfl, ?_⟩, ⟨rfl, ?_⟩,
    ⟨rfl, ?_⟩, ⟨rfl, origCalls_alertInvoke host s ctx msg⟩⟩
  · simp [startGame, origCalls_mkHook]
  · simp [startReflexMode, origCalls_mkHook]
  · simp [handleCorrectMatch, origCalls_mkHook]
  · simp [handleIncorrectMatch, origCalls_mkHook]
  · simp [handleCampaignWin, origCalls_mkHook]
  · simp [handleReflexModeEnd, origCalls_mkHook]
  · simp [startTimer, origCalls]

/-- A host with no game state, used for concrete evaluations of the
startTimer hook. -/
def hostTimerCex : Host :=
  { gameState := none, calculateXP := none, calculateCampaignStars := none,
    calculateReflexStars := none, analyticsThrows := false, now := 0 }

/-- C9 counterexample: the claim says instrumentation executes before
the delegation to the original in every hooked operation, but the
startTimer wrapper (source line 263) invokes the original FIRST and
only afterwards performs its instrumentation effect, the assignment
window.alert := wrapper; at this concrete input the event list starts
with the delegation and the instrumentation effect follows it. -/
theorem startTimer_original_before_instrumentation_cex :
    instrThenOrig (startTimer hostTimerCex initState .undef 30 (some .undef)).events
      = false ∧
    (startTimer hostTimerCex initState .undef 30 (some .undef)).events
      = [Event.origCall ("startTimer") JVal.undef [JVal.num 30], Event.setAlert] := by
  decide

/-- C9 amended: for the six game-event hooks (startGame,
startReflexMode, handleCorrectMatch, handleIncorrectMatch,
handleCampaignWin, handleReflexModeEnd) and for the chained alert
wrappers, every instrumentation effect happens before the single final
delegation to the original; the startTimer hook instead invokes the
original first and installs the alert wrapper afterwards; in all cases
the original's result is returned unchanged. -/
theorem instrumentation_order_amended (host : Host) (s : IntState) (ctx : JVal)
    (level dur : Int) (msg : String) (r : JVal) :
    instrThenOrig (startGame host s ctx level (some r)).events = true ∧
    instrThenOrig (startReflexMode host s ctx (some r)).events = true ∧
    instrThenOrig (handleCorrectMatch host s ctx (some r)).events = true ∧
    instrThenOrig (handleIncorrectMatch host s ctx (some r)).events = true ∧
    instrThenOrig (handleCampaignWin host s ctx (some r)).events = true ∧
    instrThenOrig (handleReflexModeEnd host s ctx (some r)).events = true ∧
    instrThenOrig (alertInvoke host s ctx msg).events = true ∧
    (startTimer host s ctx dur (some r)).events
      = [Event.origCall ("startTimer") ctx [.num dur], Event.setAlert] ∧
    (startTimer host s ctx dur (some r)).ret = .ok r := by
  refine ⟨?_, ?_, ?_, ?_, ?_, ?_, instrThenOrig_alertInvoke host s ctx msg, rfl, rfl⟩
  · simp [startGame, instrThenOrig_mkHook]
  · simp [startReflexMode, instrThenOrig_mkHook]
  · simp [handleCorrectMatch, instrThenOrig_mkHook]
  · simp [handleIncorrectMatch, instrThenOrig_mkHook]
  · simp [handleCampaignWin, instrThenOrig_mkHook]
  · simp [handleReflexModeEnd, instrThenOrig_mkHook]

/-- A host used for concrete evaluations of attach-time behavior. -/
def hostAttachCex : Host :=
  { gameState := none, calculateXP := none, calculateCampaignStars := none,
    calculateReflexStars := none, analyticsThrows := false, now := 1000 }

/-- C3 counterexample: the claim says that when the named original is
undefined at attach time, installation is skipped and later invocations
never raise; in the code the wrapper is installed unconditionally
(source line 36 captures window.startGame with no existence check), so
at this concrete input the wrapped invocation still runs the
instrumentation (the startLevel sink call happens and the module state
is mutated) and then the delegation to the undefined original throws a
TypeError that reaches the host caller. -/
theorem absent_original_not_skipped_cex :
    threw (startGame hostAttachCex initState .undef 1 none).ret = true ∧
    (startGame hostAttachCex initState .undef 1 none).events
      = [Event.sink (.startLevel (some ("campaign_level_1")))] ∧
    (startGame hostAttachCex initState .undef 1 none).state.currentLevelId
      = some ("campaign_level_1") := by
  decide

/-- C3 amended: when the named original host operation is undefined at
attach time, installation is NOT skipped: the wrapper is installed
anyway, and invoking the wrapped operation runs the instrumentation
(for startGame it still mutates the module state) and then throws a
TypeError to the host caller when delegating to the absent original,
never having called any original. -/
theorem absent_original_wrapper_installed (host : Host) (s : IntState) (ctx : JVal)
    (level dur : Int) :
    threw (startGame host s ctx level none).ret = true ∧
    (startGame host s ctx level none).state.levelStartTime = some host.now ∧
    (startGame host s ctx level none).state.taskCounter = 0 ∧
    origCalls ("startGame") (startGame host s ctx level none).events = [] ∧
    threw (startReflexMode host s ctx none).ret = true ∧
    threw (handleCorrectMatch host s ctx none).ret = true ∧
    threw (handleIncorrectMatch host s ctx none).ret = true ∧
    threw (handleCampaignWin host s ctx none).ret = true ∧
    threw (handleReflexModeEnd host s ctx none).ret = true ∧
    threw (startTimer host s ctx dur none).ret = true := by
  refine ⟨rfl, ?_, ?_, ?_, rfl, rfl, rfl, rfl, rfl, rfl⟩
  · simp [startGame, mkHook_state]
  · simp [startGame, mkHook_state]
  · simp [startGame, origCalls_mkHook_none]

/-- A host whose game state is present but with no level started,
used for concrete evaluations of an outcome without a start. -/
def hostC4 : Host :=
  { gameState := some { flippedCards := none, currentCampaignLevel := 3, turns := 7 },
    calculateXP := none, calculateCampaignStars := none, calculateReflexStars := none,
    analyticsThrows := false, now := 5000 }

/-- C4 counterexample: with no LevelRun active (initState: no start was
ever observed, levelStartTime and currentLevelId are null), the claim
says the outcome is treated as zero-duration and produces no report;
in the code Date.now() - null coerces null to 0 (source line 179), so
handleCampaignWin reports durationMs = 5000 (the outcome timestamp
itself, not zero) with levelId null, and still submits a report. -/
theorem outcome_without_start_cex :
    endLevels (handleCampaignWin hostC4 initState .undef (some .undef)).events
      = [(none, true, 5000, 0)] ∧
    submitCount (handleCampaignWin hostC4 initState .undef (some .undef)).events = 1 := by
  decide

/-- C4 amended: when a LevelRun is active (levelStartTime = some t),
both outcome hooks report durationMs = now - t; when none is active
(levelStartTime = null), null coerces to 0, so handleCampaignWin
reports durationMs equal to the outcome timestamp itself and STILL
submits a report; in either case no exception propagates to the caller
(the original's value is returned unchanged). -/
theorem duration_and_no_run_behavior (host : Host) (s : IntState) (ctx : JVal)
    (r : JVal) (gs : GameState) (t : Nat)
    (hgs : host.gameState = some gs) (hth : host.analyticsThrows = false) :
    (s.levelStartTime = some t →
      (∃ xp, endLevels (handleCampaignWin host s ctx (some r)).events
          = [(s.currentLevelId, true, (host.now : Int) - (t : Int), xp)]) ∧
      endLevels (handleReflexModeEnd host s ctx (some r)).events
          = [(s.currentLevelId, true, (host.now : Int) - (t : Int), 0)]) ∧
    (s.levelStartTime = none →
      (∃ xp, endLevels (handleCampaignWin host s ctx (some r)).events
          = [(s.currentLevelId, true, (host.now : Int), xp)]) ∧
      submitCount (handleCampaignWin host s ctx (some r)).events = 1) ∧
    (handleCampaignWin host s ctx (some r)).ret = .ok r ∧
    (handleReflexModeEnd host s ctx (some r)).ret = .ok r := by
  refine ⟨?_, ?_, rfl, rfl⟩
  · intro ht
    constructor
    · refine ⟨match host.calculateXP with
        | some f => f gs.currentCampaignLevel gs.turns
        | none => 0, ?_⟩
      simp only [handleCampaignWin, endLevels_mkHook]
      cases hxp : host.calculateXP <;>
        simp [campaignWinInstr, hgs, hth, hxp, startedAtOr0, ht, endLevels]
    · simp only [handleReflexModeEnd, endLevels_mkHook]
      simp [reflexEndInstr, hgs, hth, startedAtOr0, ht, endLevels]
  · intro ht
    constructor
    · refine ⟨match host.calculateXP with
        | some f => f gs.currentCampaignLevel gs.turns
        | none => 0, ?_⟩
      simp only [handleCampaignWin, endLevels_mkHook]
      cases hxp : host.calculateXP <;>
        simp [campaignWinInstr, hgs, hth, hxp, startedAtOr0, ht, endLevels]
    · simp only [handleCampaignWin, submitCount_mkHook]
      simp [campaignWinInstr, hgs, hth, startedAtOr0, ht, submitCount, isSubmit,
        List.filter]

/-- A started module state used by the C4 witness: a campaign level was
started at timestamp 100. -/
def startedState : IntState :=
  { levelStartTime := some 100, currentLevelId := some ("campaign_level_1"),
    taskCounter := 0, alertDepth := 0 }

/-- C4 amended witness: the amended statement applied at a concrete
host (outcome at timestamp 5000) and a run started at timestamp 100. -/
theorem duration_and_no_run_behavior_w :
    (startedState.levelStartTime = some 100 →
      (∃ xp, endLevels (handleCampaignWin hostC4 startedState .undef (some .undef)).events
          = [(startedState.currentLevelId, true, (hostC4.now : Int) - ((100 : Nat) : Int), xp)]) ∧
      endLevels (handleReflexModeEnd hostC4 startedState .undef (some .undef)).events
          = [(startedState.currentLevelId, true, (hostC4.now : Int) - ((100 : Nat) : Int), 0)]) ∧
    (startedState.levelStartTime = none →
      (∃ xp, endLevels (handleCampaignWin hostC4 startedState .undef (some .undef)).events
          = [(startedState.currentLevelId, true, (hostC4.now : Int), xp)]) ∧
      submitCount (handleCampaignWin hostC4 startedState .undef (some .undef)).events = 1) ∧
    (handleCampaignWin hostC4 startedState .undef (some .undef)).ret = .ok .undef ∧
    (handleReflexModeEnd hostC4 startedState .undef (some .undef)).ret = .ok .undef :=
  duration_and_no_run_behavior hostC4 startedState .undef .undef
    { flippedCards := none, currentCampaignLevel := 3, turns := 7 } 100 rfl rfl

/-- A host used for the chained-alert-wrapper evaluation. -/
def hostC2 : Host :=
  { gameState := some { flippedCards := none, currentCampaignLevel := 1, turns := 4 },
    calculateXP := none, calculateCampaignStars := none, calculateReflexStars := none,
    analyticsThrows := false, now := 9000 }

/-- C2: the startTimer wrapper chains a NEW wrapper onto window.alert on
every invocation (source lines 268-292 run on each startTimer call), so
after two startTimer calls a single timeout notification passes through
two wrapper layers and each one ends the level and submits a report:
one observed outcome event produces two submissions, violating the
exactly-once invariant the claim states. -/
theorem chained_alert_wrappers_double_submit :
    ((startTimer hostC2 ((startTimer hostC2 initState .undef 30 (some .undef)).state)
        .undef 45 (some .undef)).state).alertDepth = 2 ∧
    submitCount (alertInvoke hostC2
      ((startTimer hostC2 ((startTimer hostC2 initState .undef 30 (some .undef)).state)
        .undef 45 (some .undef)).state)
      .undef ("Time\x27s Up!")).events = 2 := by
  decide

/-- C5: task sequence numbers are strictly increasing within a level
run and reset at every level start.  First two conjuncts: from any
module state, resolving a correct match with two flipped cards records
the task with sequence number taskCounter + 1 and leaves the counter at
that value (strict increase).  Last two conjuncts: starting level l1,
recording one task, then starting level l2 with no intervening end
resets the counter to 0, and the first task recorded afterwards is
task_1 rather than a continuation of the prior sequence. -/
theorem level_start_resets_task_sequence
    (hostA hostB hostC hostD : Host) (s : IntState) (ctx : JVal)
    (l1 l2 : Int) (origA origB origC origD : Option JVal)
    (gsB gsD : GameState) (b1 b2 d1 d2 : Card)
    (hB : hostB.gameState = some gsB) (hBf : gsB.flippedCards = some [b1, b2])
    (hBt : hostB.analyticsThrows = false)
    (hD : hostD.gameState = some gsD) (hDf : gsD.flippedCards = some [d1, d2])
    (hDt : hostD.analyticsThrows = false) :
    (handleCorrectMatch hostB s ctx origB).state.taskCounter = s.taskCounter + 1 ∧
    taskIds (handleCorrectMatch hostB s ctx origB).events
      = [("task_") ++ toString (s.taskCounter + 1)] ∧
    (startGame hostC ((handleCorrectMatch hostB ((startGame hostA s ctx l1 origA).state)
        ctx origB).state) ctx l2 origC).state.taskCounter = 0 ∧
    taskIds (handleCorrectMatch hostD ((startGame hostC ((handleCorrectMatch hostB
        ((startGame hostA s ctx l1 origA).state) ctx origB).state) ctx l2 origC).state)
        ctx origD).events = [("task_1")] := by
  refine ⟨?_, ?_, ?_, ?_⟩
  · simp only [handleCorrectMatch, mkHook_state]
    cases hth : hostB.analyticsThrows <;> simp [correctMatchInstr, hB, hBf, hth]
  · simp only [handleCorrectMatch, taskIds_mkHook]
    simp [correctMatchInstr, hB, hBf, hBt, taskIds]
  · simp [startGame, mkHook_state]
  · simp only [handleCorrectMatch, taskIds_mkHook]
    simp only [startGame, mkHook_state]
    simp [correctMatchInstr, hD, hDf, hDt, taskIds]
    decide

/-- The game state used by the C5 witness: two flipped cards both
observing A. -/
def gsTwoCards : GameState :=
  { flippedCards := some [⟨some ("A"), some ("A")⟩, ⟨some ("A"), none⟩],
    currentCampaignLevel := 1, turns := 2 }

/-- The host used by the C5 witness. -/
def hostC5 : Host :=
  { gameState := some gsTwoCards, calculateXP := none, calculateCampaignStars := none,
    calculateReflexStars := none, analyticsThrows := false, now := 100 }

/-- C5 witness: the reset law applied at a concrete host and the fresh
module state, starting level 1, recording a match, then starting
level 2 and recording another match. -/
theorem level_start_resets_task_sequence_w :
    (handleCorrectMatch hostC5 initState .undef (some .undef)).state.taskCounter
      = initState.taskCounter + 1 ∧
    taskIds (handleCorrectMatch hostC5 initState .undef (some .undef)).events
      = [("task_") ++ toString (initState.taskCounter + 1)] ∧
    (startGame hostC5 ((handleCorrectMatch hostC5 ((startGame hostC5 initState .undef 1
        (some .undef)).state) .undef (some .undef)).state) .undef 2
        (some .undef)).state.taskCounter = 0 ∧
    taskIds (handleCorrectMatch hostC5 ((startGame hostC5 ((handleCorrectMatch hostC5
        ((startGame hostC5 initState .undef 1 (some .undef)).state) .undef
        (some .undef)).state) .undef 2 (some .undef)).state)
        .undef (some .undef)).events = [("task_1")] :=
  level_start_resets_task_sequence hostC5 hostC5 hostC5 hostC5 initState .undef 1 2
    (some .undef) (some .undef) (some .undef) (some .undef) gsTwoCards gsTwoCards
    ⟨some ("A"), some ("A")⟩ ⟨some ("A"), none⟩
    ⟨some ("A"), some ("A")⟩ ⟨some ("A"), none⟩
    rfl rfl rfl rfl rfl rfl

/-- C6: a correct match resolved with exactly two flipped cards whose
observed dataset values are readable (present and nonempty) records a
task whose expected field is the first card's observed value and whose
actual field is the second card's observed value; in particular two
cards both observing A give expected = actual = A (witness below). -/
theorem correct_match_expected_actual (host : Host) (s : IntState) (ctx : JVal)
    (orig : Option JVal) (gs : GameState) (c1 c2 : Card) (v1 v2 : String)
    (hgs : host.gameState = some gs) (hfc : gs.flippedCards = some [c1, c2])
    (hth : host.analyticsThrows = false)
    (hv1 : c1.value = some v1) (hv2 : c2.value = some v2)
    (h1 : v1 ≠ "") (h2 : v2 ≠ "") :
    taskRecs (handleCorrectMatch host s ctx orig).events
      = [{ levelId := s.currentLevelId,
           taskId := ("task_") ++ toString (s.taskCounter + 1),
           label := ("Match: ") ++ v1,
           expected := v1, actual := v2, timeTakenMs := 0, xpEarned := 0 }] := by
  simp only [handleCorrectMatch, taskRecs_mkHook]
  simp [correctMatchInstr, hgs, hfc, hth, orUnknown, hv1, hv2, h1, h2, taskRecs]

/-- The game state used by the C6 witness: both flipped cards
observe A. -/
def gsC6 : GameState :=
  { flippedCards := some [⟨some ("A"), none⟩, ⟨some ("A"), none⟩],
    currentCampaignLevel := 1, turns := 2 }

/-- The host used by the C6 witness. -/
def hostC6 : Host :=
  { gameState := some gsC6,
    calculateXP := none, calculateCampaignStars := none, calculateReflexStars := none,
    analyticsThrows := false, now := 10 }

/-- C6 witness: two cards both observing A resolved as correct give a
single task record with expected = actual = A. -/
theorem correct_match_expected_actual_w :
    taskRecs (handleCorrectMatch hostC6 initState .undef (some .undef)).events
      = [{ levelId := initState.currentLevelId,
           taskId := ("task_") ++ toString (initState.taskCounter + 1),
           label := ("Match: ") ++ ("A"),
           expected := ("A"), actual := ("A"), timeTakenMs := 0, xpEarned := 0 }] :=
  correct_match_expected_actual hostC6 initState .undef (some .undef) gsC6
    ⟨some ("A"), none⟩ ⟨some ("A"), none⟩ ("A") ("A")
    rfl rfl rfl rfl rfl (by decide) (by decide)

/-- C7: an incorrect match resolved with exactly two flipped cards
records a task whose expected field is the first card's declared match
target (dataset.match) and whose actual field is the second card's
observed value; missing item data defaults to the sentinel string
unknown instead of failing. -/
theorem incorrect_match_expected_actual (host : Host) (s : IntState) (ctx : JVal)
    (orig : Option JVal) (gs : GameState) (c1 c2 : Card)
    (hgs : host.gameState = some gs) (hfc : gs.flippedCards = some [c1, c2])
    (hth : host.analyticsThrows = false) :
    (∀ m v1 v2 : String, c1.matchTarget = some m → m ≠ "" →
      c1.value = some v1 → v1 ≠ "" → c2.value = some v2 → v2 ≠ "" →
      taskRecs (handleIncorrectMatch host s ctx orig).events
        = [{ levelId := s.currentLevelId,
             taskId := ("task_") ++ toString (s.taskCounter + 1),
             label := ("Match: ") ++ v1,
             expected := m, actual := v2, timeTakenMs := 0, xpEarned := 0 }]) ∧
    (c1.matchTarget = none → c2.value = none →
      (taskRecs (handleIncorrectMatch host s ctx orig).events).map TaskRec.expected
          = [("unknown")] ∧
      (taskRecs (handleIncorrectMatch host s ctx orig).events).map TaskRec.actual
          = [("unknown")]) := by
  constructor
  · intro m v1 v2 hm hm0 hv1 h1 hv2 h2
    simp only [handleIncorrectMatch, taskRecs_mkHook]
    simp [incorrectMatchInstr, hgs, hfc, hth, orUnknown, hm, hm0, hv1, h1, hv2, h2,
      taskRecs]
  · intro hm hv2
    simp only [handleIncorrectMatch, taskRecs_mkHook]
    simp [incorrectMatchInstr, hgs, hfc, hth, orUnknown, hm, hv2, taskRecs]

/-- The game state used by the C7 witness: the first card declares
match target A, the second card observes B. -/
def gsC7 : GameState :=
  { flippedCards := some [⟨some ("C"), some ("A")⟩, ⟨some ("B"), none⟩],
    currentCampaignLevel := 1, turns := 2 }

/-- The host used by the C7 witness. -/
def hostC7 : Host :=
  { gameState := some gsC7,
    calculateXP := none, calculateCampaignStars := none, calculateReflexStars := none,
    analyticsThrows := false, now := 10 }

/-- C7 witness: the incorrect-match law applied at a concrete host
whose first card declares match target A and whose second card observes
B; the first implication is discharged at m = A, v2 = B. -/
theorem incorrect_match_expected_actual_w :
    (∀ m v1 v2 : String,
      (Card.mk (some ("C")) (some ("A"))).matchTarget = some m → m ≠ "" →
      (Card.mk (some ("C")) (some ("A"))).value = some v1 → v1 ≠ "" →
      (Card.mk (some ("B")) none).value = some v2 → v2 ≠ "" →
      taskRecs (handleIncorrectMatch hostC7 initState .undef (some .undef)).events
        = [{ levelId := initState.currentLevelId,
             taskId := ("task_") ++ toString (initState.taskCounter + 1),
             label := ("Match: ") ++ v1,
             expected := m, actual := v2, timeTakenMs := 0, xpEarned := 0 }]) ∧
    ((Card.mk (some ("C")) (some ("A"))).matchTarget = none →
      (Card.mk (some ("B")) none).value = none →
      (taskRecs (handleIncorrectMatch hostC7 initState .undef (some .undef)).events).map
          TaskRec.expected = [("unknown")] ∧
      (taskRecs (handleIncorrectMatch hostC7 initState .undef (some .undef)).events).map
          TaskRec.actual = [("unknown")]) :=
  incorrect_match_expected_actual hostC7 initState .undef (some .undef) gsC7
    ⟨some ("C"), some ("A")⟩ ⟨some ("B"), none⟩ rfl rfl rfl

/-- C8: after one startTimer call installed the alert wrapper
(alertDepth = 1), a notification whose message contains the timeout
marker substring triggers exactly one report submission, with exactly
one failure endLevel (success = false) and the metric
reason = timeout among the raw metrics, while a message that does not
contain the marker triggers no submission, no failure endLevel and no
metric at all; in both cases the original notification call is
forwarded exactly once with the same message. -/
theorem timeout_alert_single_report (host : Host) (s : IntState) (ctx : JVal)
    (gs : GameState) (m1 m2 : String)
    (hd : s.alertDepth = 1)
    (hgs : host.gameState = some gs) (hth : host.analyticsThrows = false)
    (hm1 : jsIncludes m1 timeoutMarker = true)
    (hm2 : jsIncludes m2 timeoutMarker = false) :
    submitCount (alertInvoke host s ctx m1).events = 1 ∧
    ((alertInvoke host s ctx m1).events.filter isFailureEnd).length = 1 ∧
    ((("reason"), ("timeout")) ∈ rawMetrics (alertInvoke host s ctx m1).events) ∧
    origCalls ("alert") (alertInvoke host s ctx m1).events = [(ctx, [.str m1])] ∧
    submitCount (alertInvoke host s ctx m2).events = 0 ∧
    ((alertInvoke host s ctx m2).events.filter isFailureEnd).length = 0 ∧
    rawMetrics (alertInvoke host s ctx m2).events = [] ∧
    origCalls ("alert") (alertInvoke host s ctx m2).events = [(ctx, [.str m2])] := by
  refine ⟨?_, ?_, ?_, origCalls_alertInvoke host s ctx m1, ?_, ?_, ?_,
    origCalls_alertInvoke host s ctx m2⟩ <;>
    simp only [alertInvoke, hd, alertCall_one] <;>
    simp [alertLayer, hm1, hm2, hgs, hth, submitCount, isSubmit, isFailureEnd,
      rawMetrics, List.filter]

/-- The module state used by the C8 witness: a campaign level running
(started at timestamp 50) with one alert wrapper installed. -/
def timerState : IntState :=
  { levelStartTime := some 50, currentLevelId := some ("campaign_level_1"),
    taskCounter := 3, alertDepth := 1 }

/-- The host used by the C8 witness. -/
def hostC8 : Host :=
  { gameState := some { flippedCards := none, currentCampaignLevel := 1, turns := 9 },
    calculateXP := none, calculateCampaignStars := none, calculateReflexStars := none,
    analyticsThrows := false, now := 80 }

/-- C8 witness: with one wrapper installed, the message containing the
timeout marker triggers exactly one failure report and the unrelated
message none; both are forwarded to the original alert. -/
theorem timeout_alert_single_report_w :
    submitCount (alertInvoke hostC8 timerState .undef ("Time\x27s Up!")).events = 1 ∧
    ((alertInvoke hostC8 timerState .undef ("Time\x27s Up!")).events.filter
      isFailureEnd).length = 1 ∧
    ((("reason"), ("timeout"))
      ∈ rawMetrics (alertInvoke hostC8 timerState .undef ("Time\x27s Up!")).events) ∧
    origCalls ("alert") (alertInvoke hostC8 timerState .undef ("Time\x27s Up!")).events
      = [(JVal.undef, [.str ("Time\x27s Up!")])] ∧
    submitCount (alertInvoke hostC8 timerState .undef ("Great job!")).events = 0 ∧
    ((alertInvoke hostC8 timerState .undef ("Great job!")).events.filter
      isFailureEnd).length = 0 ∧
    rawMetrics (alertInvoke hostC8 timerState .undef ("Great job!")).events = [] ∧
    origCalls ("alert") (alertInvoke hostC8 timerState .undef ("Great job!")).events
      = [(JVal.undef, [.str ("Great job!")])] :=
  timeout_alert_single_report hostC8 timerState .undef
    { flippedCards := none, currentCampaignLevel := 1, turns := 9 }
    ("Time\x27s Up!") ("Great job!") rfl rfl rfl (by decide) (by decide)

/-- C10: every task record forwarded to the sink, for both correct and
incorrect matches and for every host state and module state, carries
timeTakenMs = 0 and xpEarned = 0 (the source passes the literals 0 and
0 at lines 113-114 and 153-154); per-task time and XP are never
populated with nonzero values. -/
theorem task_records_zero_time_and_xp (host : Host) (s : IntState) (ctx : JVal)
    (orig : Option JVal) :
    ((taskRecs (handleCorrectMatch host s ctx orig).events).all
        fun t => t.timeTakenMs == 0 && t.xpEarned == 0) = true ∧
    ((taskRecs (handleIncorrectMatch host s ctx orig).events).all
        fun t => t.timeTakenMs == 0 && t.xpEarned == 0) = true := by
  constructor
  · simp only [handleCorrectMatch, taskRecs_mkHook]
    rcases hgs : host.gameState with _ | gs
    · simp [correctMatchInstr, hgs, taskRecs]
    · rcases hfc : gs.flippedCards with _ | l
      · simp [correctMatchInstr, hgs, hfc, taskRecs]
      · match l with
        | [] => simp [correctMatchInstr, hgs, hfc, taskRecs]
        | [c1] => simp [correctMatchInstr, hgs, hfc, taskRecs]
        | [c1, c2] =>
          cases hth : host.analyticsThrows <;>
            simp [correctMatchInstr, hgs, hfc, hth, taskRecs]
        | c1 :: c2 :: c3 :: t => simp [correctMatchInstr, hgs, hfc, taskRecs]
  · simp only [handleIncorrectMatch, taskRecs_mkHook]
    rcases hgs : host.gameState with _ | gs
    · simp [incorrectMatchInstr, hgs, taskRecs]
    · rcases hfc : gs.flippedCards with _ | l
      · simp [incorrectMatchInstr, hgs, hfc, taskRecs]
      · match l with
        | [] => simp [incorrectMatchInstr, hgs, hfc, taskRecs]
        | [c1] => simp [incorrectMatchInstr, hgs, hfc, taskRecs]
        | [c1, c2] =>
          cases hth : host.analyticsThrows <;>
            simp [incorrectMatchInstr, hgs, hfc, hth, taskRecs]
        | c1 :: c2 :: c3 :: t => simp [incorrectMatchInstr, hgs, hfc, taskRecs]

end BrainMatch
